import Mathlib

/-!
Verification of the Topic Classification & Multi-Store Fan-Out Engine of the
environment-monitoring-system repository.

The embedding models the Python sources shallowly:
- JSON values (and Python values flowing through the handlers) are the
  inductive JVal; Python None and JSON null are both jnull.
- Python dicts are association lists (Fields) with unique keys; dict
  operations (membership, get, get-with-default, assignment) are embedded
  as executable functions.
- The three store backends are modelled by explicit state records that log
  every attempted write and every committed row/document; driver-level
  success or failure is an oracle passed in (the engine treats drivers as
  external collaborators).
- The MQTT callback path (mqtt_handler.py) is a function from the parse
  outcome of the raw payload to a state transition plus an observable
  outcome (handler invoked / routing warning / error logged).
-/

namespace EnvMonitor

/-- JSON-like values; jnull doubles as Python None (json null parses to
Python None). -/
inductive JVal where
  | jnull
  | jbool (b : Bool)
  | jnum (n : Int)
  | jstr (s : String)
  | jarr (elems : List JVal)
  | jobj (fields : List (String × JVal))
deriving Repr

/-- A Python dict / JSON object body: association list with unique keys. -/
abbrev Fields := List (String × JVal)

mutual

/-- Structural equality of values, as MongoDB query filters compare them. -/
def jeq : JVal → JVal → Bool
  | .jnull, .jnull => true
  | .jbool a, .jbool b => a == b
  | .jnum a, .jnum b => a == b
  | .jstr a, .jstr b => a == b
  | .jarr xs, .jarr ys => jeqList xs ys
  | .jobj xs, .jobj ys => jeqFields xs ys
  | _, _ => false

def jeqList : List JVal → List JVal → Bool
  | [], [] => true
  | x :: xs, y :: ys => jeq x y && jeqList xs ys
  | _, _ => false

def jeqFields : List (String × JVal) → List (String × JVal) → Bool
  | [], [] => true
  | (k, v) :: xs, (k2, v2) :: ys => k == k2 && jeq v v2 && jeqFields xs ys
  | _, _ => false

end

/-- Python "is None" test on a value in our embedding. -/
def isNone : JVal → Bool
  | .jnull => true
  | _ => false

/-- Python truthiness of a value. -/
def truthy : JVal → Bool
  | .jnull => false
  | .jbool b => b
  | .jnum n => n != 0
  | .jstr s => s != ""
  | .jarr xs => !xs.isEmpty
  | .jobj fs => !fs.isEmpty

/-- Python "a or b". -/
def pyOr (a b : JVal) : JVal := if truthy a then a else b

/-- Python "k in data" (dict key membership). -/
def dictHasKey (fs : Fields) (k : String) : Bool := fs.any (fun p => p.1 == k)

/-- Python "data.get(k)": the stored value if the key is present, else None. -/
def dictGet (fs : Fields) (k : String) : JVal :=
  match fs.find? (fun p => p.1 == k) with
  | some p => p.2
  | none => JVal.jnull

/-- Python "data.get(k, d)": the default applies only when the key is absent
(a key present with value None still yields None, not the default). -/
def dictGetD (fs : Fields) (k : String) (d : JVal) : JVal :=
  match fs.find? (fun p => p.1 == k) with
  | some p => p.2
  | none => d

/-- Python dict assignment "data[k] = v", keeping keys unique. -/
def dictSet (fs : Fields) (k : String) (v : JVal) : Fields :=
  fs.filter (fun p => p.1 != k) ++ [(k, v)]

mutual

/-- json.dumps on a value (string escaping elided; no claim inspects the
rendered text beyond its presence). -/
def dumpVal : JVal → String
  | .jnull => "null"
  | .jbool true => "true"
  | .jbool false => "false"
  | .jnum n => toString n
  | .jstr s => "\"" ++ s ++ "\""
  | .jarr xs => "[" ++ dumpElems xs ++ "]"
  | .jobj fs => "\x7b" ++ dumpPairs fs ++ "\x7d"

def dumpElems : List JVal → String
  | [] => ""
  | [x] => dumpVal x
  | x :: y :: xs => dumpVal x ++ ", " ++ dumpElems (y :: xs)

def dumpPairs : List (String × JVal) → String
  | [] => ""
  | [(k, v)] => "\"" ++ k ++ "\": " ++ dumpVal v
  | (k, v) :: q :: fs => "\"" ++ k ++ "\": " ++ dumpVal v ++ ", " ++ dumpPairs (q :: fs)

end

/-! ## Store states and failure oracle -/

/-- PostgreSQL backend state: for each table we log the rows whose insert was
attempted (the adapter was called) and the rows actually committed. -/
structure PgState where
  envAttempts : List Fields
  envRows : List Fields
  readingAttempts : List Fields
  readingRows : List Fields
deriving Repr

/-- MongoDB backend state: attempted and stored sensor_data documents, plus
the device_metadata collection (unique index on device_id). -/
structure MongoState where
  insertAttempts : List Fields
  sensorData : List Fields
  deviceMetadata : List Fields
deriving Repr

/-- Neo4j backend state: the data passed to each graph operation. -/
structure NeoState where
  envAttempts : List Fields
  deviceNodeAttempts : List Fields
  linkAttempts : List (JVal × JVal)
deriving Repr

/-- The whole persistence side of the system. -/
structure SysState where
  mongo : MongoState
  pg : PgState
  neo : NeoState
deriving Repr

/-- Driver-level outcomes for the external backends: whether each native
write succeeds or raises.  The engine code never inspects these except
through the adapters' return values. -/
structure Oracle where
  mongoRaises : Bool
  pgEnvOk : Bool
  pgReadOk : Bool
  neoEnvOk : Bool
  neoNodeOk : Bool
deriving Repr

/-! ## Store adapters

postgres_handler.py, mongo_handler.py, neo4j_handler.py.  Every adapter
catches driver exceptions internally and reports failure through its return
value (False / None), so the embedded adapters are total functions. -/

/-- The environmental_data row insert_environmental_data builds from its
argument (postgres_handler.py lines 151-165). -/
def envRow (data : Fields) : Fields :=
  [("device_id", dictGet data "device_id"),
   ("recorded_at", dictGet data "timestamp"),
   ("temperature", dictGet data "temperature"),
   ("humidity", dictGet data "humidity"),
   ("pm2_5", dictGet data "pm2_5"),
   ("pm10", dictGet data "pm10"),
   ("co2", dictGet data "co2"),
   ("location", dictGet data "location"),
   ("metadata",
    if truthy (dictGet data "metadata") then JVal.jstr (dumpVal (dictGet data "metadata"))
    else JVal.jnull)]

/-- postgres_handler.py, insert_environmental_data (lines 144-176): builds the
environmental_data row from data, commits on success; on failure the
transaction is rolled back (no row) and False is returned. -/
def insert_environmental_data (ok : Bool) (st : PgState) (data : Fields) :
    PgState × Bool :=
  let row := envRow data
  let st := { st with envAttempts := st.envAttempts ++ [row] }
  if ok then ({ st with envRows := st.envRows ++ [row] }, true) else (st, false)

/-- The sensor_readings row insert_sensor_reading builds from its argument
(postgres_handler.py lines 118-131). -/
def readingRow (data : Fields) : Fields :=
  [("device_id", dictGet data "device_id"),
   ("sensor_type", dictGet data "sensor_type"),
   ("timestamp", dictGet data "timestamp"),
   ("value", dictGet data "value"),
   ("unit", dictGet data "unit"),
   ("location", dictGet data "location"),
   ("topic", dictGet data "topic"),
   ("raw_data", dictGet data "raw_data")]

/-- postgres_handler.py, insert_sensor_reading (lines 111-142): builds the
sensor_readings row from data, commits on success, rolls back on failure. -/
def insert_sensor_reading (ok : Bool) (st : PgState) (data : Fields) :
    PgState × Bool :=
  let row := readingRow data
  let st := { st with readingAttempts := st.readingAttempts ++ [row] }
  if ok then ({ st with readingRows := st.readingRows ++ [row] }, true) else (st, false)

/-- The five sensor-value keys tracked in device metadata
(mongo_handler.py lines 100-112). -/
def sensorTypeKeys : List String := ["temperature", "humidity", "pm2_5", "pm10", "co2"]

/-- Apply a MongoDB $set update: each listed key is written into the
document at top level (a nested document value replaces the whole
subdocument stored under that key). -/
def applySet (doc : Fields) : Fields → Fields
  | [] => doc
  | (k, v) :: rest => applySet (dictSet doc k v) rest

/-- update_one on device_metadata with filter by device_id, $set update and
upsert=True: the first matching document is updated in place; if none
matches, a new document is inserted (filter key plus $set fields, which
here is exactly updateData since it contains device_id). -/
def upsertByDeviceId (md : List Fields) (device_id : JVal) (updateData : Fields) :
    List Fields :=
  match md with
  | [] => [updateData]
  | doc :: rest =>
    if jeq (dictGet doc "device_id") device_id then applySet doc updateData :: rest
    else doc :: upsertByDeviceId rest device_id updateData

/-- The update_data dict of update_device_metadata (mongo_handler.py lines
97-116), after the removal of None values at its top level.  Python builds
sensor_types via list(set(...)), whose order is unspecified; we fix the
canonical key order, on which no claim depends.  Note last_values is built
as a complete five-key subdocument (absent message fields become None
inside it) and None values are removed only at the TOP level. -/
def metaUpdateData (device_id : JVal) (latest : Fields) (now : String) : Fields :=
  [("device_id", device_id),
   ("last_seen", .jstr now),
   ("last_values", .jobj (sensorTypeKeys.map (fun k => (k, dictGet latest k)))),
   ("location", dictGet latest "location"),
   ("sensor_types", .jarr ((sensorTypeKeys.filter
      (fun k => dictHasKey latest k && !isNone (dictGet latest k))).map .jstr))].filter
    (fun p => !isNone p.2)

/-- mongo_handler.py, update_device_metadata (lines 91-127): returns
immediately when the device id is falsy, otherwise upserts metaUpdateData
by device id into the collection.  now stands for datetime.now. -/
def update_device_metadata (md : List Fields) (device_id : JVal) (latest : Fields)
    (now : String) : List Fields :=
  if !truthy device_id then md
  else upsertByDeviceId md device_id (metaUpdateData device_id latest now)

/-- The timestamp defaulting at the top of insert_sensor_data
(mongo_handler.py lines 72-76). -/
def tsFill (now : String) (data : Fields) : Fields :=
  if dictHasKey data "timestamp" then data else dictSet data "timestamp" (.jstr now)

/-- mongo_handler.py, insert_sensor_data (lines 68-89).  raises models the
insert_one call raising; the except clause catches it, logs, and returns
None (jnull).  A missing timestamp is filled with the current time; the
string-to-datetime conversion of an existing timestamp is identity here.
On success the document is stored, the device metadata is upserted, and the
inserted id (a non-None value) is returned. -/
def insert_sensor_data (raises : Bool) (now : String) (st : MongoState)
    (data : Fields) : MongoState × JVal :=
  let data := tsFill now data
  let st := { st with insertAttempts := st.insertAttempts ++ [data] }
  if raises then (st, JVal.jnull)
  else
    let st := { st with sensorData := st.sensorData ++ [data] }
    let st := { st with deviceMetadata :=
      update_device_metadata st.deviceMetadata (dictGet data "device_id") data now }
    (st, JVal.jstr "inserted_id")

/-- neo4j_handler.py, store_environmental_data (lines 223-290): records the
attempt with the data passed; returns the success flag. -/
def store_environmental_data (ok : Bool) (st : NeoState) (data : Fields) :
    NeoState × Bool :=
  ({ st with envAttempts := st.envAttempts ++ [data] }, ok)

/-- neo4j_handler.py, create_device_node (lines 61-93): MERGE on device_id;
returns the device id on success, None on failure. -/
def create_device_node (ok : Bool) (st : NeoState) (data : Fields) :
    NeoState × JVal :=
  ({ st with deviceNodeAttempts := st.deviceNodeAttempts ++ [data] },
   if ok then dictGet data "device_id" else JVal.jnull)

/-- neo4j_handler.py, link_device_to_location (lines 112-134): records the
attempted relationship. -/
def link_device_to_location (st : NeoState) (device_id location : JVal) : NeoState :=
  { st with linkAttempts := st.linkAttempts ++ [(device_id, location)] }

/-! ## DataProcessor handlers

data_processor.py defines register_mqtt_handlers, which registers one
generation of closures (lines 230-236), then SHADOWS them with a second
generation of closures of the same names and registers those for the same
topics (lines 321-329).  We embed both generations; the dict-overwrite
semantics of register_handler decides which one a dispatched message runs. -/

/-- pg_data built by handle_temperature (identical in both generations,
lines 38-48 and 243-253). -/
def temperaturePgData (now : String) (data : Fields) : Fields :=
  [("device_id", dictGetD data "device_id" (.jstr "unknown")),
   ("timestamp", pyOr (dictGet data "timestamp") (.jstr now)),
   ("temperature", dictGet data "temperature"),
   ("humidity", dictGet data "humidity"),
   ("location", dictGetD data "location" (.jstr "unknown")),
   ("metadata", .jobj [("topic", dictGet data "_topic"), ("raw_data", .jobj data)])]

/-- neo4j_data built by the first-generation handle_temperature (lines 59-68). -/
def temperatureNeoData (now : String) (data : Fields) : Fields :=
  [("device_id", dictGetD data "device_id" (.jstr "unknown")),
   ("timestamp", pyOr (dictGet data "timestamp") (.jstr now)),
   ("temperature", dictGet data "temperature"),
   ("humidity", dictGet data "humidity"),
   ("location", dictGetD data "location" (.jstr "unknown")),
   ("pm2_5", dictGet data "pm2_5"),
   ("pm10", dictGet data "pm10"),
   ("co2", dictGet data "co2")]

/-- mongo_data built by handle_air_quality (identical in both generations,
lines 81-90 and 268-277). -/
def airQualityMongoData (now : String) (data : Fields) : Fields :=
  [("device_id", dictGetD data "device_id" (.jstr "unknown")),
   ("sensor_type", .jstr "air_quality"),
   ("location", dictGetD data "location" (.jstr "unknown")),
   ("pm2_5", dictGet data "pm2_5"),
   ("pm10", dictGet data "pm10"),
   ("co2", dictGet data "co2"),
   ("timestamp", pyOr (dictGet data "timestamp") (.jstr now)),
   ("metadata", .jobj data)]

/-- neo4j_data built by the first-generation handle_air_quality (lines 100-107). -/
def airQualityNeoData (now : String) (data : Fields) : Fields :=
  [("device_id", dictGetD data "device_id" (.jstr "unknown")),
   ("timestamp", pyOr (dictGet data "timestamp") (.jstr now)),
   ("pm2_5", dictGet data "pm2_5"),
   ("pm10", dictGet data "pm10"),
   ("co2", dictGet data "co2"),
   ("location", dictGetD data "location" (.jstr "unknown"))]

/-- mongo_data built by handle_device_status (identical in both generations,
lines 117-126 and 291-300). -/
def deviceStatusMongoData (now : String) (data : Fields) : Fields :=
  [("device_id", dictGetD data "device_id" (.jstr "unknown")),
   ("sensor_type", .jstr "device_status"),
   ("timestamp", pyOr (dictGet data "timestamp") (.jstr now)),
   ("status", dictGet data "status"),
   ("battery_level", dictGet data "battery_level"),
   ("signal_strength", dictGet data "signal_strength"),
   ("uptime", dictGet data "uptime"),
   ("raw_data", .jobj data)]

/-- pg_data built by handle_device_status (identical in both generations,
lines 133-142 and 307-316).  Note the asymmetry taken verbatim from the
source: value uses Python truthiness (battery_level or status), while unit
tests KEY membership of battery_level. -/
def deviceStatusPgData (now : String) (data : Fields) : Fields :=
  [("device_id", dictGetD data "device_id" (.jstr "unknown")),
   ("sensor_type", .jstr "device_status"),
   ("timestamp", pyOr (dictGet data "timestamp") (.jstr now)),
   ("value", pyOr (dictGet data "battery_level") (dictGet data "status")),
   ("unit", if dictHasKey data "battery_level" then JVal.jstr "percent" else JVal.jstr "status"),
   ("location", dictGetD data "location" (.jstr "unknown")),
   ("topic", dictGet data "_topic"),
   ("raw_data", if !data.isEmpty then JVal.jstr (dumpVal (.jobj data)) else JVal.jnull)]

/-- neo4j_device_data built by the first-generation handle_device_status
(lines 148-154). -/
def deviceStatusNeoData (now : String) (data : Fields) : Fields :=
  [("device_id", dictGetD data "device_id" (.jstr "unknown")),
   ("device_type", dictGetD data "device_type" (.jstr "environmental_sensor")),
   ("timestamp", pyOr (dictGet data "timestamp") (.jstr now)),
   ("status", dictGetD data "status" (.jstr "active")),
   ("location", dictGetD data "location" (.jstr "unknown"))]

/-- Second-generation handle_temperature (lines 239-261): PostgreSQL only;
the insert is attempted only when temperature or humidity is not None. -/
def handle_temperature_v2 (o : Oracle) (now : String) (st : SysState)
    (data : Fields) : SysState :=
  let pgData := temperaturePgData now data
  if !isNone (dictGet pgData "temperature") || !isNone (dictGet pgData "humidity") then
    { st with pg := (insert_environmental_data o.pgEnvOk st.pg pgData).1 }
  else st

/-- First-generation handle_temperature (lines 34-74): same PostgreSQL write
as the second generation, then unconditionally also stores in Neo4j. -/
def handle_temperature_v1 (o : Oracle) (now : String) (st : SysState)
    (data : Fields) : SysState :=
  let st := handle_temperature_v2 o now st data
  { st with neo := (store_environmental_data o.neoEnvOk st.neo (temperatureNeoData now data)).1 }

/-- Second-generation handle_air_quality (lines 264-284): MongoDB only. -/
def handle_air_quality_v2 (o : Oracle) (now : String) (st : SysState)
    (data : Fields) : SysState :=
  { st with mongo := (insert_sensor_data o.mongoRaises now st.mongo (airQualityMongoData now data)).1 }

/-- First-generation handle_air_quality (lines 77-110): MongoDB, then Neo4j. -/
def handle_air_quality_v1 (o : Oracle) (now : String) (st : SysState)
    (data : Fields) : SysState :=
  let st := handle_air_quality_v2 o now st data
  { st with neo := (store_environmental_data o.neoEnvOk st.neo (airQualityNeoData now data)).1 }

/-- Second-generation handle_device_status (lines 287-319): MongoDB insert,
then — regardless of the MongoDB outcome — the PostgreSQL sensor_readings
insert, attempted only when value is not None. -/
def handle_device_status_v2 (o : Oracle) (now : String) (st : SysState)
    (data : Fields) : SysState :=
  let st := { st with mongo := (insert_sensor_data o.mongoRaises now st.mongo (deviceStatusMongoData now data)).1 }
  let pgData := deviceStatusPgData now data
  if !isNone (dictGet pgData "value") then
    { st with pg := (insert_sensor_reading o.pgReadOk st.pg pgData).1 }
  else st

/-- First-generation handle_device_status (lines 113-163): the second
generation's writes, then a Neo4j device node upsert and, when both the
returned device id and the location are truthy, a device-location link. -/
def handle_device_status_v1 (o : Oracle) (now : String) (st : SysState)
    (data : Fields) : SysState :=
  let st := handle_device_status_v2 o now st data
  let ndata := deviceStatusNeoData now data
  let nodeRes := create_device_node o.neoNodeOk st.neo ndata
  let st := { st with neo := nodeRes.1 }
  if truthy nodeRes.2 && truthy (dictGet ndata "location") then
    { st with neo := link_device_to_location st.neo nodeRes.2 (dictGet ndata "location") }
  else st

/-- The kinds an envelope can be classified as (spec section 3). -/
inductive MessageKind where
  | temperature | airQuality | deviceStatus | unclassified
deriving DecidableEq, Repr

/-- The field-presence classification of DataProcessor.handle_test
(lines 336-341): key membership of temperature/humidity first, else key
membership of any pollutant field, else unclassified.  No branch of the
source produces deviceStatus. -/
def classify (data : Fields) : MessageKind :=
  if dictHasKey data "temperature" || dictHasKey data "humidity" then .temperature
  else if ["pm2_5", "pm10", "co2", "aqi"].any (dictHasKey data) then .airQuality
  else .unclassified

/-- pg_data built by DataProcessor.handle_temperature_auto (lines 351-358). -/
def tempAutoPgData (now : String) (data : Fields) : Fields :=
  [("device_id", dictGetD data "device_id" (.jstr "test_device")),
   ("timestamp", pyOr (dictGet data "timestamp") (.jstr now)),
   ("temperature", dictGet data "temperature"),
   ("humidity", dictGet data "humidity"),
   ("location", dictGetD data "location" (.jstr "test_location")),
   ("metadata", .jobj [("source", .jstr "auto_detected"), ("topic", dictGet data "_topic")])]

/-- DataProcessor.handle_temperature_auto (lines 349-361): the environmental
insert is performed unconditionally (no None check on the values). -/
def handle_temperature_auto (o : Oracle) (now : String) (st : SysState)
    (data : Fields) : SysState :=
  { st with pg := (insert_environmental_data o.pgEnvOk st.pg (tempAutoPgData now data)).1 }

/-- mongo_data built by DataProcessor.handle_air_quality_auto (lines 365-375). -/
def aqAutoMongoData (now : String) (data : Fields) : Fields :=
  [("device_id", dictGetD data "device_id" (.jstr "test_device")),
   ("sensor_type", .jstr "air_quality"),
   ("timestamp", pyOr (dictGet data "timestamp") (.jstr now)),
   ("pm2_5", dictGet data "pm2_5"),
   ("pm10", dictGet data "pm10"),
   ("co2", dictGet data "co2"),
   ("aqi", dictGet data "aqi"),
   ("location", dictGetD data "location" (.jstr "test_location")),
   ("raw_data", .jobj data)]

/-- DataProcessor.handle_air_quality_auto (lines 363-378). -/
def handle_air_quality_auto (o : Oracle) (now : String) (st : SysState)
    (data : Fields) : SysState :=
  { st with mongo := (insert_sensor_data o.mongoRaises now st.mongo (aqAutoMongoData now data)).1 }

/-- Document stored by the unclassified branch of DataProcessor.handle_test
(lines 342-347). -/
def testUnclassifiedMongoData (now : String) (data : Fields) : Fields :=
  [("device_id", dictGetD data "device_id" (.jstr "test_device")),
   ("sensor_type", .jstr "test"),
   ("timestamp", pyOr (dictGet data "timestamp") (.jstr now)),
   ("data", .jobj data)]

/-- DataProcessor.handle_test, the bound method registered last for the
catch-all topic (lines 331-347). -/
def handle_test_method (o : Oracle) (now : String) (st : SysState)
    (data : Fields) : SysState :=
  if dictHasKey data "temperature" || dictHasKey data "humidity" then
    handle_temperature_auto o now st data
  else if ["pm2_5", "pm10", "co2", "aqi"].any (dictHasKey data) then
    handle_air_quality_auto o now st data
  else
    { st with mongo := (insert_sensor_data o.mongoRaises now st.mongo (testUnclassifiedMongoData now data)).1 }

/-- pg_data of the temperature branch of the first-generation handle_test
closure (lines 172-179); its metadata differs from the auto variant. -/
def testV1TempPgData (now : String) (data : Fields) : Fields :=
  [("device_id", dictGetD data "device_id" (.jstr "test_device")),
   ("timestamp", pyOr (dictGet data "timestamp") (.jstr now)),
   ("temperature", dictGet data "temperature"),
   ("humidity", dictGet data "humidity"),
   ("location", dictGetD data "location" (.jstr "test_location")),
   ("metadata", .jobj [("source", .jstr "test"), ("topic", dictGet data "_topic")])]

/-- neo4j_data of the temperature branch of the first-generation handle_test
closure (lines 183-189). -/
def testV1TempNeoData (now : String) (data : Fields) : Fields :=
  [("device_id", dictGetD data "device_id" (.jstr "test_device")),
   ("timestamp", pyOr (dictGet data "timestamp") (.jstr now)),
   ("temperature", dictGet data "temperature"),
   ("humidity", dictGet data "humidity"),
   ("location", dictGetD data "location" (.jstr "test_location"))]

/-- mongo_data of the air-quality branch of the first-generation handle_test
closure (lines 196-205); unlike the auto variant it records no aqi field. -/
def testV1AqMongoData (now : String) (data : Fields) : Fields :=
  [("device_id", dictGetD data "device_id" (.jstr "test_device")),
   ("sensor_type", .jstr "air_quality"),
   ("timestamp", pyOr (dictGet data "timestamp") (.jstr now)),
   ("pm2_5", dictGet data "pm2_5"),
   ("pm10", dictGet data "pm10"),
   ("co2", dictGet data "co2"),
   ("location", dictGetD data "location" (.jstr "test_location")),
   ("raw_data", .jobj data)]

/-- neo4j_data of the air-quality branch of the first-generation handle_test
closure (lines 209-216). -/
def testV1AqNeoData (now : String) (data : Fields) : Fields :=
  [("device_id", dictGetD data "device_id" (.jstr "test_device")),
   ("timestamp", pyOr (dictGet data "timestamp") (.jstr now)),
   ("pm2_5", dictGet data "pm2_5"),
   ("pm10", dictGet data "pm10"),
   ("co2", dictGet data "co2"),
   ("location", dictGetD data "location" (.jstr "test_location"))]

/-- First-generation handle_test closure (lines 166-228): the same branch
conditions as handle_test_method, with Neo4j writes added to the
temperature and air-quality branches. -/
def handle_test_v1 (o : Oracle) (now : String) (st : SysState)
    (data : Fields) : SysState :=
  if dictHasKey data "temperature" || dictHasKey data "humidity" then
    let st := { st with pg := (insert_environmental_data o.pgEnvOk st.pg (testV1TempPgData now data)).1 }
    { st with neo := (store_environmental_data o.neoEnvOk st.neo (testV1TempNeoData now data)).1 }
  else if ["pm2_5", "pm10", "co2", "aqi"].any (dictHasKey data) then
    let st := { st with mongo := (insert_sensor_data o.mongoRaises now st.mongo (testV1AqMongoData now data)).1 }
    { st with neo := (store_environmental_data o.neoEnvOk st.neo (testV1AqNeoData now data)).1 }
  else
    { st with mongo := (insert_sensor_data o.mongoRaises now st.mongo (testUnclassifiedMongoData now data)).1 }

/-! ## Topic router and MQTT callback path (mqtt_handler.py) -/

/-- The handler functions of data_processor.py that can be registered for a
topic; V1 names the closures of the first registration block, V2 the
shadowing closures of the second block, testMethod the bound
DataProcessor.handle_test. -/
inductive HandlerId where
  | temperatureV1 | airQualityV1 | deviceStatusV1 | testV1
  | temperatureV2 | airQualityV2 | deviceStatusV2 | testMethod
deriving DecidableEq, Repr

/-- Run the handler a topic dispatches to. -/
def runHandler (h : HandlerId) (o : Oracle) (now : String) (st : SysState)
    (data : Fields) : SysState :=
  match h with
  | .temperatureV1 => handle_temperature_v1 o now st data
  | .airQualityV1 => handle_air_quality_v1 o now st data
  | .deviceStatusV1 => handle_device_status_v1 o now st data
  | .testV1 => handle_test_v1 o now st data
  | .temperatureV2 => handle_temperature_v2 o now st data
  | .airQualityV2 => handle_air_quality_v2 o now st data
  | .deviceStatusV2 => handle_device_status_v2 o now st data
  | .testMethod => handle_test_method o now st data

/-- The message_handlers dict of MQTTHandler: topic to handler. -/
abbrev Router := List (String × HandlerId)

/-- MQTTHandler.register_handler (lines 77-84): plain dict assignment, so a
new registration for an existing topic overwrites the old handler. -/
def register_handler (m : Router) (topic : String) (h : HandlerId) : Router :=
  m.filter (fun p => p.1 != topic) ++ [(topic, h)]

/-- Lookup of msg.topic in message_handlers. -/
def routerLookup (m : Router) (topic : String) : Option HandlerId :=
  (m.find? (fun p => p.1 == topic)).map (fun p => p.2)

/-- DataProcessor.register_mqtt_handlers: the first registration block
(lines 231-236) followed by the second block (lines 322-329), run on the
initially empty handler dict during DataProcessor initialization. -/
def register_mqtt_handlers (m : Router) : Router :=
  let m := register_handler m "sensors/temperature" .temperatureV1
  let m := register_handler m "sensors/humidity" .temperatureV1
  let m := register_handler m "sensors/air_quality" .airQualityV1
  let m := register_handler m "sensors/device/status" .deviceStatusV1
  let m := register_handler m "sensors/device/health" .deviceStatusV1
  let m := register_handler m "test/topic" .testV1
  let m := register_handler m "sensors/temperature" .temperatureV2
  let m := register_handler m "sensors/humidity" .temperatureV2
  let m := register_handler m "sensors/air_quality" .airQualityV2
  let m := register_handler m "sensors/device/status" .deviceStatusV2
  let m := register_handler m "sensors/device/health" .deviceStatusV2
  register_handler m "test/topic" .testMethod

/-- Outcome of running json.loads on the decoded payload text:
a dict, some other valid JSON value, or a JSONDecodeError. -/
inductive ParsedPayload where
  | jsonObj (fields : Fields)
  | jsonOther (v : JVal)
  | malformed (text : String)
deriving Repr

/-- What MQTTHandler.on_message is observed to do with one message. -/
inductive MsgOutcome where
  | handled (h : HandlerId)
  | routingWarning
  | errorLogged
deriving DecidableEq, Repr

/-- The data dict on_message builds before routing (lines 52-62): a parsed
dict is tagged with _topic and _timestamp; a JSONDecodeError payload is
wrapped as a raw_data dict with the same tags.  A payload that parses to a
non-dict JSON value raises TypeError at the item assignment on line 54, so
no dict is built. -/
def buildEnvelope (topic now : String) : ParsedPayload → Option Fields
  | .jsonObj fs => some (dictSet (dictSet fs "_topic" (.jstr topic)) "_timestamp" (.jstr now))
  | .malformed text => some [("raw_data", .jstr text), ("_topic", .jstr topic), ("_timestamp", .jstr now)]
  | .jsonOther _ => none

/-- The routing step of on_message (lines 64-68): call the registered
handler for msg.topic, or log a warning and drop the message. -/
def dispatch (m : Router) (topic : String) (data : Fields) (o : Oracle)
    (now : String) (st : SysState) : SysState × MsgOutcome :=
  match routerLookup m topic with
  | some h => (runHandler h o now st data, .handled h)
  | none => (st, .routingWarning)

/-- MQTTHandler.on_message (lines 44-71): build the data dict, then route.
Any exception inside the callback (here: the non-dict TypeError) is caught
by the outer try and logged as an error, with the message dropped. -/
def on_message (m : Router) (o : Oracle) (now : String) (st : SysState)
    (topic : String) (p : ParsedPayload) : SysState × MsgOutcome :=
  match buildEnvelope topic now p with
  | some data => dispatch m topic data o now st
  | none => (st, .errorLogged)

/-! ## Helper lemmas about the dict and router primitives -/

theorem find?_overwrite {α : Type} (l : List (String × α)) (t : String) (x : α) :
    (l.filter (fun p => p.1 != t) ++ [(t, x)]).find? (fun p => p.1 == t) = some (t, x) := by
  induction l with
  | nil => simp
  | cons a l ih =>
    obtain ⟨a1, a2⟩ := a
    by_cases h : a1 = t
    · simp [List.filter_cons, h, ih]
    · simp [List.filter_cons, List.find?_cons, h, ih]

theorem find?_filter_of_ne {α : Type} (l : List (String × α)) (k k2 : String)
    (h : k2 ≠ k) :
    (l.filter (fun p => p.1 != k)).find? (fun p => p.1 == k2)
      = l.find? (fun p => p.1 == k2) := by
  induction l with
  | nil => rfl
  | cons a l ih =>
    obtain ⟨a1, a2⟩ := a
    by_cases hk : a1 = k
    · subst hk
      have h2 : (a1 == k2) = false := by simp [Ne.symm h]
      simpa [List.filter_cons, List.find?_cons, h2] using ih
    · by_cases ha : a1 = k2
      · subst ha
        simp [List.filter_cons, List.find?_cons, hk]
      · simpa [List.filter_cons, List.find?_cons, hk, ha] using ih

theorem any_filter_of_ne {α : Type} (l : List (String × α)) (k k2 : String)
    (h : k2 ≠ k) :
    (l.filter (fun p => p.1 != k)).any (fun p => p.1 == k2)
      = l.any (fun p => p.1 == k2) := by
  induction l with
  | nil => rfl
  | cons a l ih =>
    obtain ⟨a1, a2⟩ := a
    by_cases hk : a1 = k
    · subst hk
      have h2 : (a1 == k2) = false := by simp [Ne.symm h]
      simpa [List.filter_cons, h2] using ih
    · simp [List.filter_cons, hk, ih]

theorem dictGet_dictSet (fs : Fields) (k k2 : String) (v : JVal) :
    dictGet (dictSet fs k v) k2 = if k2 = k then v else dictGet fs k2 := by
  by_cases h : k2 = k
  · subst h
    unfold dictGet dictSet
    rw [find?_overwrite, if_pos rfl]
  · unfold dictGet dictSet
    rw [if_neg h, List.find?_append, find?_filter_of_ne fs k k2 h]
    have hne : (k == k2) = false := by simp [Ne.symm h]
    cases hf : fs.find? (fun p => p.1 == k2) with
    | none => simp [List.find?_cons, hne]
    | some p => rfl

theorem dictHasKey_dictSet (fs : Fields) (k k2 : String) (v : JVal) :
    dictHasKey (dictSet fs k v) k2 = (k2 == k || dictHasKey fs k2) := by
  by_cases h : k2 = k
  · subst h
    simp [dictHasKey, dictSet]
  · unfold dictHasKey dictSet
    rw [List.any_append, any_filter_of_ne fs k k2 h]
    have hne : (k == k2) = false := by simp [Ne.symm h]
    have hne2 : (k2 == k) = false := by simp [h]
    simp [hne, hne2]

theorem dictGet_of_no_key (fs : Fields) (k : String) (h : dictHasKey fs k = false) :
    dictGet fs k = JVal.jnull := by
  have hfind : fs.find? (fun p => p.1 == k) = none := by
    rw [List.find?_eq_none]
    intro x hx hpx
    have hany : fs.any (fun p => p.1 == k) = true := List.any_eq_true.mpr ⟨x, hx, hpx⟩
    rw [dictHasKey] at h
    rw [h] at hany
    exact Bool.false_ne_true hany
  simp [dictGet, hfind]

theorem dictGet_tsFill (now : String) (data : Fields) (k : String)
    (h : k ≠ "timestamp") : dictGet (tsFill now data) k = dictGet data k := by
  unfold tsFill
  split
  · rfl
  · rw [dictGet_dictSet]; simp [h]

theorem dictHasKey_tsFill (now : String) (data : Fields) (k : String)
    (h : k ≠ "timestamp") : dictHasKey (tsFill now data) k = dictHasKey data k := by
  unfold tsFill
  split
  · rfl
  · rw [dictHasKey_dictSet]; simp [h]

theorem routerLookup_register (m : Router) (t : String) (h : HandlerId) :
    routerLookup (register_handler m t h) t = some h := by
  unfold routerLookup register_handler
  rw [find?_overwrite]
  rfl

/-! ## Shared concrete values for witnesses -/

def emptySys : SysState := ⟨⟨[], [], []⟩, ⟨[], [], [], []⟩, ⟨[], [], []⟩⟩

def oracleOk : Oracle := ⟨false, true, true, true, true⟩

/-! ## Claim theorems -/

/-- Claim C1: for every topic, registering a handler overwrites any
previously registered handler for that topic (last registration wins), and
dispatching a message on that topic invokes exactly the most-recently
registered handler — the resulting state is that handler's run and the
outcome names it, whatever handler was registered before. -/
theorem register_last_wins (m : Router) (t : String) (h h2 : HandlerId)
    (o : Oracle) (now : String) (st : SysState) (fs : Fields) :
    routerLookup (register_handler (register_handler m t h2) t h) t = some h ∧
    on_message (register_handler (register_handler m t h2) t h) o now st t (.jsonObj fs)
      = (runHandler h o now st (dictSet (dictSet fs "_topic" (.jstr t)) "_timestamp" (.jstr now)),
         .handled h) := by
  have hl := routerLookup_register (register_handler m t h2) t h
  exact ⟨hl, by simp [on_message, buildEnvelope, dispatch, hl]⟩

/-- Claim C7: a message on a topic with no registered handler is dropped
with a warning: no handler runs, the store state is unchanged, and the same
holds whether the payload decoded as JSON or fell back to the raw-text
wrapper. -/
theorem routing_miss_drops (m : Router) (t : String) (data : Fields)
    (o : Oracle) (now : String) (st : SysState)
    (hmiss : routerLookup m t = none) :
    dispatch m t data o now st = (st, .routingWarning) ∧
    (∀ fs : Fields, on_message m o now st t (.jsonObj fs) = (st, .routingWarning)) ∧
    (∀ s : String, on_message m o now st t (.malformed s) = (st, .routingWarning)) := by
  refine ⟨by simp [dispatch, hmiss], fun fs => ?_, fun s => ?_⟩ <;>
    simp [on_message, buildEnvelope, dispatch, hmiss]

theorem routing_miss_drops_witness :
    routerLookup [] "sensors/unknown" = none ∧
    dispatch [] "sensors/unknown" [] oracleOk "T0" emptySys = (emptySys, .routingWarning) := by
  refine ⟨rfl, ?_⟩
  exact (routing_miss_drops [] "sensors/unknown" [] oracleOk "T0" emptySys rfl).1

/-- Claim C8 counterexample: the payload text 42 is valid JSON but not a
JSON object, so it fails structured (JSON-object) parsing; the claim says
such a payload is wrapped as a raw-text envelope and still routed to the
topic's handler.  In the code, json.loads succeeds (returning the int 42),
the item assignment on mqtt_handler.py line 54 raises TypeError, the outer
except logs an error, and the message is dropped — even though the topic
has a registered handler. -/
theorem nonobject_payload_dropped :
    routerLookup (register_mqtt_handlers []) "test/topic" = some .testMethod ∧
    on_message (register_mqtt_handlers []) oracleOk "T0" emptySys "test/topic"
      (.jsonOther (.jnum 42)) = (emptySys, .errorLogged) :=
  ⟨rfl, rfl⟩

/-- Claim C8 as amended: for every inbound payload that raises a JSON decode
error (is not valid JSON at all), the engine does not fail: it wraps the
payload text as a raw_data envelope tagged with the topic and a receipt
timestamp, and that envelope is still routed to the topic's registered
handler.  (Payloads that are valid JSON but not objects are instead dropped
with a logged error, as the counterexample shows.) -/
theorem malformed_payload_wrapped_and_routed (m : Router) (t s now : String)
    (o : Oracle) (st : SysState) (h : HandlerId)
    (hreg : routerLookup m t = some h) :
    on_message m o now st t (.malformed s)
      = (runHandler h o now st
          [("raw_data", .jstr s), ("_topic", .jstr t), ("_timestamp", .jstr now)],
         .handled h) := by
  simp [on_message, buildEnvelope, dispatch, hreg]

theorem malformed_payload_wrapped_and_routed_witness :
    routerLookup (register_mqtt_handlers []) "test/topic" = some .testMethod ∧
    on_message (register_mqtt_handlers []) oracleOk "T0" emptySys "test/topic"
      (.malformed "not json")
      = (runHandler .testMethod oracleOk "T0" emptySys
          [("raw_data", .jstr "not json"), ("_topic", .jstr "test/topic"),
           ("_timestamp", .jstr "T0")],
         .handled .testMethod) :=
  ⟨rfl, malformed_payload_wrapped_and_routed (register_mqtt_handlers [])
    "test/topic" "not json" "T0" oracleOk emptySys .testMethod rfl⟩

/-- Claim C4: an envelope in which both temperature and humidity resolve to
None is a no-op for the relational store when routed through the temperature
handler: the (final, second-generation) handle_temperature skips the insert
entirely, leaving the whole state unchanged — nothing is written with null
values; and an envelope with neither key is never routed by the catch-all
handler to the temperature-auto writer either, so its relational state is
also unchanged on that path. -/
theorem temperature_absent_no_relational_write
    (o : Oracle) (now : String) (st : SysState) (data : Fields)
    (ht : dictGet data "temperature" = JVal.jnull)
    (hh : dictGet data "humidity" = JVal.jnull) :
    handle_temperature_v2 o now st data = st ∧
    (dictHasKey data "temperature" = false → dictHasKey data "humidity" = false →
      (handle_test_method o now st data).pg = st.pg) := by
  constructor
  · have e1 : dictGet (temperaturePgData now data) "temperature"
        = dictGet data "temperature" := rfl
    have e2 : dictGet (temperaturePgData now data) "humidity"
        = dictGet data "humidity" := rfl
    unfold handle_temperature_v2
    simp only [e1, e2, ht, hh]
    simp [isNone]
  · intro hkt hkh
    unfold handle_test_method
    rw [hkt, hkh]
    simp only [Bool.or_self, Bool.false_eq_true, if_false]
    split
    · rfl
    · rfl

theorem temperature_absent_no_relational_write_witness :
    handle_temperature_v2 oracleOk "T0" emptySys [("device_id", .jstr "dev1")] = emptySys ∧
    (handle_test_method oracleOk "T0" emptySys [("device_id", .jstr "dev1")]).pg = emptySys.pg :=
  ⟨(temperature_absent_no_relational_write oracleOk "T0" emptySys
      [("device_id", .jstr "dev1")] rfl rfl).1,
   (temperature_absent_no_relational_write oracleOk "T0" emptySys
      [("device_id", .jstr "dev1")] rfl rfl).2 rfl rfl⟩

/-- Claim C5: a catch-all message whose fields contain any of pm2_5, pm10,
co2 or aqi but neither temperature nor humidity is classified AirQuality —
never DeviceStatus and never Unclassified; moreover no catch-all message
whatsoever is classified DeviceStatus. -/
theorem catchall_pollutants_classified_air_quality (data : Fields)
    (hpoll : (["pm2_5", "pm10", "co2", "aqi"].any (dictHasKey data)) = true)
    (ht : dictHasKey data "temperature" = false)
    (hh : dictHasKey data "humidity" = false) :
    classify data = .airQuality ∧
    classify data ≠ .deviceStatus ∧
    classify data ≠ .unclassified ∧
    ∀ d : Fields, classify d ≠ .deviceStatus := by
  have hc : classify data = .airQuality := by
    unfold classify
    rw [ht, hh, hpoll]
    simp
  refine ⟨hc, by simp [hc], by simp [hc], fun d => ?_⟩
  unfold classify
  split
  · simp
  · split <;> simp

theorem catchall_pollutants_classified_air_quality_witness :
    classify [("pm2_5", JVal.jnum 10)] = .airQuality ∧
    classify [("pm2_5", JVal.jnum 10)] ≠ .deviceStatus :=
  ⟨(catchall_pollutants_classified_air_quality [("pm2_5", JVal.jnum 10)] rfl rfl rfl).1,
   (catchall_pollutants_classified_air_quality [("pm2_5", JVal.jnum 10)] rfl rfl rfl).2.1⟩

/-- Claim C10: the catch-all classifier tests key presence, not value
presence: a catch-all envelope whose fields map temperature to null (with
humidity absent) is classified Temperature and routed to the
temperature-auto writer, whose relational insert is attempted
unconditionally — for every oracle, including a failing one, the attempt is
recorded — and the attempted row carries null temperature and null
humidity. -/
theorem catchall_null_temperature_written_with_nulls
    (o : Oracle) (now : String) (st : SysState) (data : Fields)
    (hkt : dictHasKey data "temperature" = true)
    (ht : dictGet data "temperature" = JVal.jnull)
    (hkh : dictHasKey data "humidity" = false) :
    classify data = .temperature ∧
    (handle_test_method o now st data).pg.envAttempts
      = st.pg.envAttempts ++ [envRow (tempAutoPgData now data)] ∧
    dictGet (envRow (tempAutoPgData now data)) "temperature" = JVal.jnull ∧
    dictGet (envRow (tempAutoPgData now data)) "humidity" = JVal.jnull := by
  refine ⟨?_, ?_, ?_, ?_⟩
  · unfold classify
    rw [hkt]
    simp
  · unfold handle_test_method
    rw [hkt]
    simp only [Bool.true_or, if_true]
    unfold handle_temperature_auto insert_environmental_data
    split <;> rfl
  · have e : dictGet (envRow (tempAutoPgData now data)) "temperature"
        = dictGet data "temperature" := rfl
    rw [e, ht]
  · have e : dictGet (envRow (tempAutoPgData now data)) "humidity"
        = dictGet data "humidity" := rfl
    rw [e, dictGet_of_no_key data "humidity" hkh]

theorem catchall_null_temperature_written_with_nulls_witness :
    classify [("temperature", JVal.jnull)] = .temperature ∧
    (handle_test_method oracleOk "T0" emptySys [("temperature", JVal.jnull)]).pg.envAttempts
      = [envRow (tempAutoPgData "T0" [("temperature", JVal.jnull)])] :=
  ⟨(catchall_null_temperature_written_with_nulls oracleOk "T0" emptySys
      [("temperature", JVal.jnull)] rfl rfl rfl).1,
   (catchall_null_temperature_written_with_nulls oracleOk "T0" emptySys
      [("temperature", JVal.jnull)] rfl rfl rfl).2.1⟩

/-- Claim C2 counterexample: a device-status message with battery_level = 0
present (and status "online").  The claim says value equals the battery
level whenever a battery level is present, so it predicts value = 0 here;
the code computes value with Python truthiness (0 or "online" evaluates to
"online"), so the relational record's value is "online", not the battery
level — while unit is still "percent" because the KEY battery_level is
present. -/
theorem battery_zero_value_is_status :
    dictGet [("device_id", JVal.jstr "dev1"), ("battery_level", JVal.jnum 0),
      ("status", JVal.jstr "online")] "battery_level" = JVal.jnum 0 ∧
    dictGet (deviceStatusPgData "T0"
      [("device_id", JVal.jstr "dev1"), ("battery_level", JVal.jnum 0),
       ("status", JVal.jstr "online")]) "value" = JVal.jstr "online" ∧
    dictGet (deviceStatusPgData "T0"
      [("device_id", JVal.jstr "dev1"), ("battery_level", JVal.jnum 0),
       ("status", JVal.jstr "online")]) "value" ≠ JVal.jnum 0 ∧
    dictGet (deviceStatusPgData "T0"
      [("device_id", JVal.jstr "dev1"), ("battery_level", JVal.jnum 0),
       ("status", JVal.jstr "online")]) "unit" = JVal.jstr "percent" := by
  refine ⟨rfl, rfl, fun hc => ?_, rfl⟩
  rw [show dictGet (deviceStatusPgData "T0"
      [("device_id", JVal.jstr "dev1"), ("battery_level", JVal.jnum 0),
       ("status", JVal.jstr "online")]) "value" = JVal.jstr "online" from rfl] at hc
  exact JVal.noConfusion hc

/-- Claim C2 as amended: for every device-status message, the relational
record's value is the battery level when the battery level is TRUTHY
(non-null and non-zero), and otherwise the status value; unit is "percent"
exactly when the KEY battery_level occurs in the fields (even mapped to
null or 0), else "status"; and the relational write is skipped entirely —
only the document-store write happens — exactly when value resolves to
None.  The spec's two concrete instances follow (see the witness). -/
theorem device_status_value_unit (now : String) (data : Fields) :
    (truthy (dictGet data "battery_level") = true →
      dictGet (deviceStatusPgData now data) "value" = dictGet data "battery_level") ∧
    (truthy (dictGet data "battery_level") = false →
      dictGet (deviceStatusPgData now data) "value" = dictGet data "status") ∧
    dictGet (deviceStatusPgData now data) "unit"
      = (if dictHasKey data "battery_level" then JVal.jstr "percent" else JVal.jstr "status") ∧
    (∀ (o : Oracle) (st : SysState),
      isNone (dictGet (deviceStatusPgData now data) "value") = true →
        handle_device_status_v2 o now st data
          = { st with mongo := (insert_sensor_data o.mongoRaises now st.mongo
              (deviceStatusMongoData now data)).1 }) := by
  have eval : dictGet (deviceStatusPgData now data) "value"
      = pyOr (dictGet data "battery_level") (dictGet data "status") := rfl
  refine ⟨fun h => ?_, fun h => ?_, rfl, fun o st h => ?_⟩
  · rw [eval]
    unfold pyOr
    rw [h]
    simp
  · rw [eval]
    unfold pyOr
    rw [h]
    simp
  · unfold handle_device_status_v2
    simp [h]

theorem device_status_value_unit_witness :
    dictGet (deviceStatusPgData "T0"
      [("device_id", JVal.jstr "dev1"), ("battery_level", JVal.jnum 85)]) "value"
      = JVal.jnum 85 ∧
    dictGet (deviceStatusPgData "T0"
      [("device_id", JVal.jstr "dev1"), ("battery_level", JVal.jnum 85)]) "unit"
      = JVal.jstr "percent" ∧
    dictGet (deviceStatusPgData "T0"
      [("device_id", JVal.jstr "dev1"), ("status", JVal.jstr "online")]) "value"
      = JVal.jstr "online" ∧
    dictGet (deviceStatusPgData "T0"
      [("device_id", JVal.jstr "dev1"), ("status", JVal.jstr "online")]) "unit"
      = JVal.jstr "status" ∧
    handle_device_status_v2 oracleOk "T0" emptySys [("device_id", JVal.jstr "dev1")]
      = { emptySys with mongo := (insert_sensor_data false "T0" emptySys.mongo
          (deviceStatusMongoData "T0" [("device_id", JVal.jstr "dev1")])).1 } :=
  ⟨((device_status_value_unit "T0"
      [("device_id", JVal.jstr "dev1"), ("battery_level", JVal.jnum 85)]).1 rfl).trans rfl,
   ((device_status_value_unit "T0"
      [("device_id", JVal.jstr "dev1"), ("battery_level", JVal.jnum 85)]).2.2.1).trans rfl,
   ((device_status_value_unit "T0"
      [("device_id", JVal.jstr "dev1"), ("status", JVal.jstr "online")]).2.1 rfl).trans rfl,
   ((device_status_value_unit "T0"
      [("device_id", JVal.jstr "dev1"), ("status", JVal.jstr "online")]).2.2.1).trans rfl,
   (device_status_value_unit "T0" [("device_id", JVal.jstr "dev1")]).2.2.2
     oracleOk emptySys rfl⟩

/-- Claim C3: fan-out isolation for the two-store device-status kind.  The
MongoDB adapter catches a raising driver insert and returns None rather
than propagating; the PostgreSQL side of handle_device_status is identical
whether or not the MongoDB write raised (the failure neither prevents the
relational write nor rolls it back), with a raising MongoDB driver the
relational write is still attempted — exactly once, so no retry — whenever
the record's value is not None, and the MongoDB attempt itself is made
exactly once with no retry. -/
theorem device_status_fanout_isolation (o : Oracle) (now : String)
    (st : SysState) (data : Fields) :
    (insert_sensor_data true now st.mongo (deviceStatusMongoData now data)).2
      = JVal.jnull ∧
    (handle_device_status_v2 { o with mongoRaises := true } now st data).pg
      = (handle_device_status_v2 { o with mongoRaises := false } now st data).pg ∧
    ((!isNone (dictGet (deviceStatusPgData now data) "value")) = true →
      (handle_device_status_v2 { o with mongoRaises := true } now st data).pg.readingAttempts
        = st.pg.readingAttempts ++ [readingRow (deviceStatusPgData now data)]) ∧
    (handle_device_status_v2 { o with mongoRaises := true } now st data).mongo.insertAttempts
      = st.mongo.insertAttempts ++ [deviceStatusMongoData now data] := by
  refine ⟨rfl, ?_, fun hval => ?_, ?_⟩
  · by_cases hc : (!isNone (dictGet (deviceStatusPgData now data) "value")) = true
    · simp only [handle_device_status_v2]
      simp [hc]
    · simp only [handle_device_status_v2]
      simp [hc]
  · simp only [handle_device_status_v2]
    simp only [hval, if_true]
    unfold insert_sensor_reading
    split <;> rfl
  · by_cases hc : (!isNone (dictGet (deviceStatusPgData now data) "value")) = true
    · simp only [handle_device_status_v2]
      simp [hc]
      rfl
    · simp only [handle_device_status_v2]
      simp [hc]
      rfl

theorem device_status_fanout_isolation_witness :
    (handle_device_status_v2 { oracleOk with mongoRaises := true } "T0" emptySys
      [("device_id", JVal.jstr "dev1"), ("battery_level", JVal.jnum 85)]).pg.readingAttempts
      = [readingRow (deviceStatusPgData "T0"
          [("device_id", JVal.jstr "dev1"), ("battery_level", JVal.jnum 85)])] :=
  (device_status_fanout_isolation oracleOk "T0" emptySys
    [("device_id", JVal.jstr "dev1"), ("battery_level", JVal.jnum 85)]).2.2.1 rfl

/-- Claim C9: after DataProcessor initialization (register_mqtt_handlers on
the initially empty handler dict), the sensors/temperature and
sensors/humidity topics map to the second-generation temperature handler —
the duplicate registration overwrote the first-generation handler — and
that handler performs no Neo4j operation, so dispatching ANY message on
those topics leaves the Neo4j state unchanged.  The overwritten
first-generation handler would have written to Neo4j unconditionally, as
the last conjunct records. -/
theorem temperature_topics_no_graph_writes :
    routerLookup (register_mqtt_handlers []) "sensors/temperature" = some .temperatureV2 ∧
    routerLookup (register_mqtt_handlers []) "sensors/humidity" = some .temperatureV2 ∧
    (∀ (o : Oracle) (now : String) (st : SysState) (data : Fields),
      (runHandler .temperatureV2 o now st data).neo = st.neo) ∧
    (∀ (o : Oracle) (now : String) (st : SysState) (p : ParsedPayload),
      ((on_message (register_mqtt_handlers []) o now st "sensors/temperature" p).1).neo
        = st.neo) ∧
    (∀ (o : Oracle) (now : String) (st : SysState) (p : ParsedPayload),
      ((on_message (register_mqtt_handlers []) o now st "sensors/humidity" p).1).neo
        = st.neo) ∧
    (∀ (o : Oracle) (now : String) (st : SysState) (data : Fields),
      (runHandler .temperatureV1 o now st data).neo.envAttempts
        = st.neo.envAttempts ++ [temperatureNeoData now data]) := by
  have hrun : ∀ (o : Oracle) (now : String) (st : SysState) (data : Fields),
      (runHandler .temperatureV2 o now st data).neo = st.neo := by
    intro o now st data
    simp only [runHandler, handle_temperature_v2]
    split <;> rfl
  refine ⟨rfl, rfl, hrun, fun o now st p => ?_, fun o now st p => ?_, fun o now st data => ?_⟩
  · cases p with
    | jsonObj fs =>
      simp only [on_message, buildEnvelope, dispatch,
        show routerLookup (register_mqtt_handlers []) "sensors/temperature"
          = some HandlerId.temperatureV2 from rfl]
      exact hrun o now st _
    | jsonOther v => rfl
    | malformed s =>
      simp only [on_message, buildEnvelope, dispatch,
        show routerLookup (register_mqtt_handlers []) "sensors/temperature"
          = some HandlerId.temperatureV2 from rfl]
      exact hrun o now st _
  · cases p with
    | jsonObj fs =>
      simp only [on_message, buildEnvelope, dispatch,
        show routerLookup (register_mqtt_handlers []) "sensors/humidity"
          = some HandlerId.temperatureV2 from rfl]
      exact hrun o now st _
    | jsonOther v => rfl
    | malformed s =>
      simp only [on_message, buildEnvelope, dispatch,
        show routerLookup (register_mqtt_handlers []) "sensors/humidity"
          = some HandlerId.temperatureV2 from rfl]
      exact hrun o now st _
  · simp only [runHandler, handle_temperature_v1, handle_temperature_v2,
      store_environmental_data]
    split <;> rfl

/-! ## Claim C6: device-metadata upsert semantics -/

/-- Read a field of a subdocument: data[k1][k2] when data[k1] is a document. -/
def dictGet2 (doc : Fields) (k1 k2 : String) : JVal :=
  match dictGet doc k1 with
  | .jobj fs => dictGet fs k2
  | _ => JVal.jnull

theorem isNone_iff (v : JVal) : isNone v = true ↔ v = JVal.jnull := by
  cases v <;> simp [isNone]

theorem isNone_jstr (s : String) : isNone (.jstr s) = false := rfl

theorem isNone_jobj (fs : List (String × JVal)) : isNone (.jobj fs) = false := rfl

theorem isNone_jarr (xs : List JVal) : isNone (.jarr xs) = false := rfl

theorem dictGet_lastValuesMap (latest : Fields) (k : String)
    (hk : k ∈ sensorTypeKeys) :
    dictGet (sensorTypeKeys.map (fun k2 => (k2, dictGet latest k2))) k
      = dictGet latest k := by
  simp only [sensorTypeKeys] at hk
  fin_cases hk <;> rfl

theorem sensorKey_ne_timestamp (k : String) (hk : k ∈ sensorTypeKeys) :
    k ≠ "timestamp" := by
  simp only [sensorTypeKeys] at hk
  fin_cases hk <;> decide

theorem metaUpdateData_eq (did : JVal) (latest : Fields) (now : String)
    (hdid : isNone did = false) :
    metaUpdateData did latest now
      = if isNone (dictGet latest "location") = true then
          [("device_id", did), ("last_seen", .jstr now),
           ("last_values", .jobj (sensorTypeKeys.map (fun k => (k, dictGet latest k)))),
           ("sensor_types", .jarr ((sensorTypeKeys.filter
              (fun k => dictHasKey latest k && !isNone (dictGet latest k))).map .jstr))]
        else
          [("device_id", did), ("last_seen", .jstr now),
           ("last_values", .jobj (sensorTypeKeys.map (fun k => (k, dictGet latest k)))),
           ("location", dictGet latest "location"),
           ("sensor_types", .jarr ((sensorTypeKeys.filter
              (fun k => dictHasKey latest k && !isNone (dictGet latest k))).map .jstr))] := by
  unfold metaUpdateData
  by_cases hl : isNone (dictGet latest "location") = true
  · rw [if_pos hl]
    simp [List.filter_cons, isNone_jstr, isNone_jobj, isNone_jarr, hdid, hl]
  · rw [if_neg hl]
    have hl2 : isNone (dictGet latest "location") = false :=
      Bool.eq_false_iff.mpr hl
    simp [List.filter_cons, isNone_jstr, isNone_jobj, isNone_jarr, hdid, hl2]

/-- The device_metadata collection after two consecutive successful
insert_sensor_data calls on an initially empty MongoDB state. -/
def twoInsertMeta (now1 now2 : String) (d1 d2 : Fields) : List Fields :=
  ((insert_sensor_data false now2
    ((insert_sensor_data false now1 ⟨[], [], []⟩ d1).1) d2).1).deviceMetadata

/-- Claim C6 counterexample: insert two sensor documents for device dev1
into an empty store, the first carrying temperature 20 (and no humidity),
the second humidity 50 (and no temperature).  The metadata record is
updated, not duplicated — but the $set writes the whole last_values
subdocument, so the final record's last_values.temperature is null: the
earlier message's temperature 20 is NOT retained for a field the later
message omitted, contradicting the merge clause of the claim. -/
theorem metadata_upsert_drops_omitted_sensor_values :
    (twoInsertMeta "T1" "T2"
      [("device_id", .jstr "dev1"), ("temperature", .jnum 20)]
      [("device_id", .jstr "dev1"), ("humidity", .jnum 50)]).length = 1 ∧
    (((insert_sensor_data false "T1" ⟨[], [], []⟩
      [("device_id", .jstr "dev1"), ("temperature", .jnum 20)]).1).deviceMetadata).map
        (fun doc => dictGet2 doc "last_values" "temperature") = [.jnum 20] ∧
    (twoInsertMeta "T1" "T2"
      [("device_id", .jstr "dev1"), ("temperature", .jnum 20)]
      [("device_id", .jstr "dev1"), ("humidity", .jnum 50)]).map
        (fun doc => dictGet2 doc "last_values" "temperature") = [.jnull] ∧
    (twoInsertMeta "T1" "T2"
      [("device_id", .jstr "dev1"), ("temperature", .jnum 20)]
      [("device_id", .jstr "dev1"), ("humidity", .jnum 50)]).map
        (fun doc => dictGet2 doc "last_values" "humidity") = [.jnum 50] :=
  ⟨rfl, rfl, rfl, rfl⟩

/-- Claim C6 as amended: every successful insert carrying a truthy device id
upserts (never duplicates) the device-metadata document keyed by that id —
after two inserts for the same device id there is exactly one record — and
the upsert merges at the TOP level of the document: a top-level field the
later message omits (location) retains the earlier message's value.  But
the last_values subdocument is written wholesale by the later message, so
for every tracked sensor field its entry equals the later message's value —
null when the later message omitted that field — rather than retaining the
earlier message's value. -/
theorem metadata_upsert_merge_semantics (id : String) (d1 d2 : Fields)
    (now1 now2 : String) (hid : id ≠ "")
    (h1 : dictGet d1 "device_id" = .jstr id)
    (h2 : dictGet d2 "device_id" = .jstr id) :
    (twoInsertMeta now1 now2 d1 d2).length = 1 ∧
    dictGet ((twoInsertMeta now1 now2 d1 d2).headD []) "device_id" = .jstr id ∧
    dictGet ((twoInsertMeta now1 now2 d1 d2).headD []) "last_seen" = .jstr now2 ∧
    (∀ k ∈ sensorTypeKeys,
      dictGet2 ((twoInsertMeta now1 now2 d1 d2).headD []) "last_values" k
        = dictGet d2 k) ∧
    (isNone (dictGet d2 "location") = true →
      dictGet ((twoInsertMeta now1 now2 d1 d2).headD []) "location"
        = dictGet d1 "location") ∧
    (isNone (dictGet d2 "location") = false →
      dictGet ((twoInsertMeta now1 now2 d1 d2).headD []) "location"
        = dictGet d2 "location") := by
  have hdd1 : dictGet (tsFill now1 d1) "device_id" = .jstr id := by
    rw [dictGet_tsFill _ _ _ (by decide)]
    exact h1
  have hdd2 : dictGet (tsFill now2 d2) "device_id" = .jstr id := by
    rw [dictGet_tsFill _ _ _ (by decide)]
    exact h2
  have htr : truthy (JVal.jstr id) = true := by simp [truthy, hid]
  have hloc1 : dictGet (tsFill now1 d1) "location" = dictGet d1 "location" :=
    dictGet_tsFill _ _ _ (by decide)
  have hloc2 : dictGet (tsFill now2 d2) "location" = dictGet d2 "location" :=
    dictGet_tsFill _ _ _ (by decide)
  have hu1id : dictGet (metaUpdateData (.jstr id) (tsFill now1 d1) now1) "device_id"
      = .jstr id := by
    rw [metaUpdateData_eq _ _ _ (isNone_jstr id)]
    by_cases hl : isNone (dictGet (tsFill now1 d1) "location") = true
    · rw [if_pos hl]
      simp [dictGet, List.find?_cons]
    · rw [if_neg hl]
      simp [dictGet, List.find?_cons]
  have e2 : twoInsertMeta now1 now2 d1 d2
      = upsertByDeviceId [metaUpdateData (.jstr id) (tsFill now1 d1) now1] (.jstr id)
          (metaUpdateData (.jstr id) (tsFill now2 d2) now2) := by
    unfold twoInsertMeta
    simp only [insert_sensor_data]
    rw [hdd1, hdd2]
    simp [update_device_metadata, htr, upsertByDeviceId]
  have e3 : twoInsertMeta now1 now2 d1 d2
      = [applySet (metaUpdateData (.jstr id) (tsFill now1 d1) now1)
          (metaUpdateData (.jstr id) (tsFill now2 d2) now2)] := by
    rw [e2]
    simp [upsertByDeviceId, hu1id, jeq]
  rw [e3]
  simp only [List.headD_cons, List.length_cons, List.length_nil]
  have hu2 := metaUpdateData_eq (.jstr id) (tsFill now2 d2) now2 (isNone_jstr id)
  rw [hloc2] at hu2
  by_cases hl2 : isNone (dictGet d2 "location") = true
  · rw [if_pos hl2] at hu2
    rw [hu2]
    refine ⟨by trivial, ?_, ?_, ?_, fun _ => ?_,
      fun hcon => (Bool.false_ne_true (hcon ▸ hl2)).elim⟩
    · simp [applySet, dictGet_dictSet]
    · simp [applySet, dictGet_dictSet]
    · intro k hk
      have hlv : dictGet2 (applySet (metaUpdateData (.jstr id) (tsFill now1 d1) now1)
          [("device_id", JVal.jstr id), ("last_seen", .jstr now2),
           ("last_values", .jobj (sensorTypeKeys.map (fun k => (k, dictGet (tsFill now2 d2) k)))),
           ("sensor_types", .jarr ((sensorTypeKeys.filter
              (fun k => dictHasKey (tsFill now2 d2) k
                && !isNone (dictGet (tsFill now2 d2) k))).map .jstr))]) "last_values" k
          = dictGet (sensorTypeKeys.map (fun k => (k, dictGet (tsFill now2 d2) k))) k := by
        simp [dictGet2, applySet, dictGet_dictSet]
      rw [hlv, dictGet_lastValuesMap (tsFill now2 d2) k hk,
        dictGet_tsFill _ _ _ (sensorKey_ne_timestamp k hk)]
    · -- location absent from the update: the earlier record's value survives
      have hnok : dictGet (applySet (metaUpdateData (.jstr id) (tsFill now1 d1) now1)
          [("device_id", JVal.jstr id), ("last_seen", .jstr now2),
           ("last_values", .jobj (sensorTypeKeys.map (fun k => (k, dictGet (tsFill now2 d2) k)))),
           ("sensor_types", .jarr ((sensorTypeKeys.filter
              (fun k => dictHasKey (tsFill now2 d2) k
                && !isNone (dictGet (tsFill now2 d2) k))).map .jstr))]) "location"
          = dictGet (metaUpdateData (.jstr id) (tsFill now1 d1) now1) "location" := by
        simp [applySet, dictGet_dictSet]
      rw [hnok]
      rw [metaUpdateData_eq _ _ _ (isNone_jstr id)]
      by_cases hl1 : isNone (dictGet (tsFill now1 d1) "location") = true
      · rw [if_pos hl1]
        rw [hloc1] at hl1
        rw [(isNone_iff _).mp hl1]
        simp [dictGet, List.find?_cons]
      · rw [if_neg hl1]
        rw [← hloc1]
        simp [dictGet, List.find?_cons]
  · rw [if_neg hl2] at hu2
    rw [hu2]
    refine ⟨by trivial, ?_, ?_, ?_, fun hcon => absurd hcon hl2, fun _ => ?_⟩
    · simp [applySet, dictGet_dictSet]
    · simp [applySet, dictGet_dictSet]
    · intro k hk
      have hlv : dictGet2 (applySet (metaUpdateData (.jstr id) (tsFill now1 d1) now1)
          [("device_id", JVal.jstr id), ("last_seen", .jstr now2),
           ("last_values", .jobj (sensorTypeKeys.map (fun k => (k, dictGet (tsFill now2 d2) k)))),
           ("location", dictGet d2 "location"),
           ("sensor_types", .jarr ((sensorTypeKeys.filter
              (fun k => dictHasKey (tsFill now2 d2) k
                && !isNone (dictGet (tsFill now2 d2) k))).map .jstr))]) "last_values" k
          = dictGet (sensorTypeKeys.map (fun k => (k, dictGet (tsFill now2 d2) k))) k := by
        simp [dictGet2, applySet, dictGet_dictSet]
      rw [hlv, dictGet_lastValuesMap (tsFill now2 d2) k hk,
        dictGet_tsFill _ _ _ (sensorKey_ne_timestamp k hk)]
    · simp [applySet, dictGet_dictSet]

theorem metadata_upsert_merge_semantics_witness :
    (twoInsertMeta "T1" "T2"
      [("device_id", .jstr "dev1"), ("temperature", .jnum 20)]
      [("device_id", .jstr "dev1"), ("humidity", .jnum 50),
       ("location", .jstr "room_a")]).length = 1 ∧
    dictGet2 ((twoInsertMeta "T1" "T2"
      [("device_id", .jstr "dev1"), ("temperature", .jnum 20)]
      [("device_id", .jstr "dev1"), ("humidity", .jnum 50),
       ("location", .jstr "room_a")]).headD []) "last_values" "humidity" = .jnum 50 ∧
    dictGet ((twoInsertMeta "T1" "T2"
      [("device_id", .jstr "dev1"), ("temperature", .jnum 20)]
      [("device_id", .jstr "dev1"), ("humidity", .jnum 50),
       ("location", .jstr "room_a")]).headD []) "location" = .jstr "room_a" :=
  ⟨(metadata_upsert_merge_semantics "dev1"
      [("device_id", .jstr "dev1"), ("temperature", .jnum 20)]
      [("device_id", .jstr "dev1"), ("humidity", .jnum 50), ("location", .jstr "room_a")]
      "T1" "T2" (by decide) rfl rfl).1,
   ((metadata_upsert_merge_semantics "dev1"
      [("device_id", .jstr "dev1"), ("temperature", .jnum 20)]
      [("device_id", .jstr "dev1"), ("humidity", .jnum 50), ("location", .jstr "room_a")]
      "T1" "T2" (by decide) rfl rfl).2.2.2.1 "humidity"
        (by simp [sensorTypeKeys])).trans rfl,
   ((metadata_upsert_merge_semantics "dev1"
      [("device_id", .jstr "dev1"), ("temperature", .jnum 20)]
      [("device_id", .jstr "dev1"), ("humidity", .jnum 50), ("location", .jstr "room_a")]
      "T1" "T2" (by decide) rfl rfl).2.2.2.2.2 rfl).trans rfl⟩

end EnvMonitor

